import Mathlib

/-
Shallow embedding of the credential / authorization layer and the CRUD
routers of the musica_api repository (src/musica_api/auth.py, models.py,
schemas.py, routers/auth.py, routers/usuarios.py, routers/canciones.py,
routers/favoritos.py).

Conventions of the embedding:
* HTTP exceptions (`HTTPException(status_code, detail)`) become the
  `HttpError` structure and fallible handlers return `Except HttpError α`.
* The SQL store (`Session`) becomes explicit lists of records in `Store`;
  `select(...).where(col == v).first()` becomes `List.find?`,
  `offset(skip).limit(limit)` becomes `List.drop`/`List.take`.
* `datetime` columns filled by `default_factory` (fecha_registro,
  fecha_creacion, fecha_marcado) are carried by no modelled operation's
  logic and are omitted from the record types.
* passlib's bcrypt backend (the library behind `pwd_context`) is modelled
  from its documented behaviour: it feeds only the first 72 bytes of the
  UTF-8 encoded password into the digest, and `CryptContext.verify` raises
  `UnknownHashError` when the stored hash string is not a recognizable
  bcrypt hash.  The digest itself is idealized as an injective function of
  the truncated key (bcrypt treated as collision-free).
* Some f-string detail messages of the source wrap the offending value in
  single-quote characters; those quote characters are dropped from the
  modelled detail strings (no claim depends on them).
* python-jose's `jwt.encode`/`jwt.decode` are modelled with an idealized
  HMAC signature: a token records which key signed it, and decoding with
  `secret` succeeds only when that key equals `secret` (EUF-CMA
  idealization); `exp` is validated as in jose (`exp < now` is expired,
  leeway 0).  Both signature failure and expiration raise `JWTError`
  subclasses, modelled by `JwtError`.
-/

namespace MusicaApi

/-- Roles of models.RolUsuario, a str-Enum: the stored column is the plain
string value. -/
def RolUsuario.ADMINISTRADOR : String := "administrador"

/-- The regular-user role string of models.RolUsuario. -/
def RolUsuario.USUARIO : String := "usuario"

/-- bcrypt's fixed input limit: only the first 72 bytes of the password
take part in the digest (passlib bcrypt backend, `truncate_error` off by
default, so longer inputs are silently truncated). -/
def BCRYPT_MAX_BYTES : Nat := 72

/-- UTF-8 encoding of a string, byte by byte. -/
def utf8Bytes (s : String) : List UInt8 :=
  s.data.flatMap String.utf8EncodeChar

/-- The key material bcrypt actually hashes: the UTF-8 bytes of the
password, truncated to 72 bytes. -/
def bcryptKey (contrasena : String) : List UInt8 :=
  (utf8Bytes contrasena).take BCRYPT_MAX_BYTES

/-- A parsed bcrypt hash string `$2b$cost$saltdigest`: self-describing
cost factor, salt, and digest.  The digest of key material `k` under
parameters `(cost, salt)` is idealized as `k` itself (an injective
function of the truncated key; bcrypt treated as collision-free). -/
structure BcryptHash where
  cost : Nat
  salt : Nat
  digest : List UInt8
deriving DecidableEq

/-- The password-hash column of the usuarios table.  It stores an
arbitrary string; every such string either parses as a bcrypt hash or is
malformed, and the two constructors are that partition. -/
inductive HashColumn where
  | bcrypt (h : BcryptHash)
  | malformed (raw : String)
deriving DecidableEq

/-- passlib error raised when the stored hash string cannot be identified
as any configured scheme (`UnknownHashError`, a `ValueError`). -/
inductive HashError where
  | unknownHash
deriving DecidableEq

/-- auth.hashear_contrasena: `pwd_context.hash(contraseña)` with the
bcrypt scheme.  passlib picks a fresh random salt and the configured cost;
both are explicit parameters here since the embedding is pure. -/
def hashear_contrasena (cost salt : Nat) (contrasena : String) : HashColumn :=
  .bcrypt { cost := cost, salt := salt, digest := bcryptKey contrasena }

/-- auth.verificar_contrasena: `pwd_context.verify(plana, stored)`.
A malformed stored hash makes passlib raise `UnknownHashError`; a
well-formed bcrypt hash is checked by recomputing the digest with the
stored parameters and comparing. -/
def verificar_contrasena (contrasena_plana : String) (contrasena_hash : HashColumn) :
    Except HashError Bool :=
  match contrasena_hash with
  | .malformed _ => .error .unknownHash
  | .bcrypt h => .ok (bcryptKey contrasena_plana == h.digest)

/-- models.Usuario (table usuarios): id, nombre, unique correo, password
hash, role string, active flag.  The fecha_registro timestamp column is
omitted (no modelled operation reads it). -/
structure Usuario where
  id : Nat
  nombre : String
  correo : String
  contrasenaHash : HashColumn
  rol : String
  activo : Bool
deriving DecidableEq

/-- models.Cancion (table canciones).  fecha_creacion omitted. -/
structure Cancion where
  id : Nat
  titulo : String
  artista : String
  album : Option String
  duracion : Nat
  anio : Option Nat
  genero : Option String
deriving DecidableEq

/-- models.Favorito (table favoritos): the user-song relation.
fecha_marcado omitted. -/
structure Favorito where
  id : Nat
  idUsuario : Nat
  idCancion : Nat
deriving DecidableEq

/-- The persistent store the Session mediates: the three tables. -/
structure Store where
  usuarios : List Usuario
  canciones : List Cancion
  favoritos : List Favorito
deriving DecidableEq

/-- An HTTPException: status code and detail message. -/
structure HttpError where
  status : Nat
  detail : String
deriving DecidableEq

/-- The shared 401 raised by verificar_token and obtener_usuario_actual
(auth.py builds it twice with identical fields). -/
def credentialsException : HttpError :=
  { status := 401, detail := "No se pudo validar las credenciales" }

/-- The JWT payload dict `{sub: correo, rol: rol, exp: instant}` as
encoded by crear_access_token; `sub`/`rol` are `payload.get(...)` results
on the decoding side, hence optional. -/
structure TokenPayload where
  sub : Option String
  rol : Option String
  exp : Nat
deriving DecidableEq

/-- A signed JWT.  `signedWith` is the idealized HMAC-SHA-256 signature:
verification against key `k` succeeds exactly when `signedWith = k`. -/
structure JWT where
  payload : TokenPayload
  signedWith : Nat
deriving DecidableEq

/-- schemas.TokenData: the decoded token fields returned by
verificar_token (correo checked non-null there, rol passed through). -/
structure TokenData where
  correo : String
  rol : Option String
deriving DecidableEq

/-- The `JWTError` family of python-jose: signature failure and
`ExpiredSignatureError` are both subclasses caught by one handler. -/
inductive JwtError where
  | badSignature
  | expired
deriving DecidableEq

/-- jose's `jwt.decode(token, secret, algorithms)`: signature integrity is
checked first, then the `exp` claim (expired when `exp < now`, leeway 0). -/
def jwtDecode (secret now : Nat) (token : JWT) : Except JwtError TokenPayload :=
  if token.signedWith ≠ secret then .error .badSignature
  else if token.payload.exp < now then .error .expired
  else .ok token.payload

/-- auth.crear_access_token: copies the data `{sub, rol}`, sets
`exp = now + expires_delta`, and signs with the server secret. -/
def crear_access_token (secret now : Nat) (sub rol : String) (expiresDelta : Nat) : JWT :=
  { payload := { sub := some sub, rol := some rol, exp := now + expiresDelta },
    signedWith := secret }

/-- auth.verificar_token: decode; any JWTError (bad signature or expiry)
becomes the one credentials_exception, as does a missing `sub` claim;
otherwise the TokenData is returned. -/
def verificar_token (secret now : Nat) (token : JWT) : Except HttpError TokenData :=
  match jwtDecode secret now token with
  | .error _ => .error credentialsException
  | .ok payload =>
    match payload.sub with
    | none => .error credentialsException
    | some correo => .ok { correo := correo, rol := payload.rol }

/-- auth.obtener_usuario_actual: verify the token, look the user up by the
`sub` email, 401 when absent, 403 "Usuario inactivo" when inactive. -/
def obtener_usuario_actual (secret now : Nat) (usuarios : List Usuario) (token : JWT) :
    Except HttpError Usuario :=
  match verificar_token secret now token with
  | .error e => .error e
  | .ok tokenData =>
    match usuarios.find? (fun u => u.correo == tokenData.correo) with
    | none => .error credentialsException
    | some usuario =>
      if ¬ usuario.activo then
        .error { status := 403, detail := "Usuario inactivo" }
      else
        .ok usuario

/-- auth.verificar_administrador: the already-authenticated user must have
the administrator role, else 403. -/
def verificar_administrador (usuario_actual : Usuario) : Except HttpError Usuario :=
  if usuario_actual.rol ≠ RolUsuario.ADMINISTRADOR then
    .error { status := 403, detail := "No tiene permisos de administrador" }
  else
    .ok usuario_actual

/-- auth.autenticar_usuario: find the user by email, then check the
password; a malformed stored hash propagates passlib's error. -/
def autenticar_usuario (correo contrasena : String) (usuarios : List Usuario) :
    Except HashError (Option Usuario) :=
  match usuarios.find? (fun u => u.correo == correo) with
  | none => .ok none
  | some usuario =>
    match verificar_contrasena contrasena usuario.contrasenaHash with
    | .error e => .error e
    | .ok b => .ok (if b then some usuario else none)

/-- schemas.Token: the login response body. -/
structure Token where
  accessToken : JWT
  tokenType : String
  rol : String
deriving DecidableEq

/-- Unhandled internal errors surface as a generic 500 at the request
boundary (spec taxonomy); used when a handler lets a library error
escape. -/
def internalServerError : HttpError :=
  { status := 500, detail := "Internal Server Error" }

/-- routers/auth.login: authenticate, 401 on bad credentials, 403 when the
account is inactive, else mint a bearer token with
`data = {sub: correo, rol: rol}` and the configured expiry window. -/
def login (secret now expiresDelta : Nat) (usuarios : List Usuario)
    (username password : String) : Except HttpError Token :=
  match autenticar_usuario username password usuarios with
  | .error _ => .error internalServerError
  | .ok none =>
    .error { status := 401, detail := "Credenciales incorrectas" }
  | .ok (some usuario) =>
    if ¬ usuario.activo then
      .error { status := 403, detail := "Usuario inactivo. Contacte al administrador." }
    else
      .ok { accessToken := crear_access_token secret now usuario.correo usuario.rol expiresDelta,
            tokenType := "bearer",
            rol := usuario.rol }

/-- schemas.UsuarioRegister: the public-registration body; it has no rol
and no activo field at all. -/
structure UsuarioRegister where
  nombre : String
  correo : String
  contrasena : String
deriving DecidableEq

/-- schemas.UsuarioCreate: the admin create body; rol defaults to
"usuario". -/
structure UsuarioCreate where
  nombre : String
  correo : String
  contrasena : String
  rol : String := RolUsuario.USUARIO
deriving DecidableEq

/-- schemas.UsuarioUpdate: every field optional; `none` models a field
absent from the request body (pydantic `exclude_unset`). -/
structure UsuarioUpdate where
  nombre : Option String := none
  correo : Option String := none
  contrasena : Option String := none
deriving DecidableEq

/-- schemas.CancionUpdate: every field optional, `none` = not provided. -/
structure CancionUpdate where
  titulo : Option String := none
  artista : Option String := none
  album : Option String := none
  duracion : Option Nat := none
  anio : Option Nat := none
  genero : Option String := none
deriving DecidableEq

/-- schemas.FavoritoCreate: the favorites create body. -/
structure FavoritoCreate where
  idUsuario : Nat
  idCancion : Nat
deriving DecidableEq

/-- routers/auth.registrar_usuario: public registration.  Reject with 400
when the email is taken; otherwise store a new user with the hash of the
given password, rol fixed to "usuario" and activo fixed to true. -/
def registrar_usuario (cost salt : Nat) (store : Store) (nuevo_id : Nat)
    (usuario_data : UsuarioRegister) : Except HttpError (Store × Usuario) :=
  if store.usuarios.any (fun u => u.correo == usuario_data.correo) then
    .error { status := 400,
             detail := "El correo " ++ usuario_data.correo ++ " ya está registrado" }
  else
    let nuevo_usuario : Usuario :=
      { id := nuevo_id,
        nombre := usuario_data.nombre,
        correo := usuario_data.correo,
        contrasenaHash := hashear_contrasena cost salt usuario_data.contrasena,
        rol := RolUsuario.USUARIO,
        activo := true }
    .ok ({ store with usuarios := store.usuarios ++ [nuevo_usuario] }, nuevo_usuario)

/-- routers/usuarios.listar_usuarios: admin-gated, returns the user list
paginated by offset/limit. -/
def listar_usuarios (store : Store) (usuario_actual : Usuario) (skip limit : Nat) :
    Except HttpError (List Usuario) :=
  match verificar_administrador usuario_actual with
  | .error e => .error e
  | .ok _ => .ok ((store.usuarios.drop skip).take limit)

/-- routers/usuarios.crear_usuario: admin-gated; 400 on duplicate email or
invalid rol; otherwise store the new user (activo := true). -/
def crear_usuario (cost salt : Nat) (store : Store) (usuario_actual : Usuario)
    (nuevo_id : Nat) (usuario : UsuarioCreate) : Except HttpError (Store × Usuario) :=
  match verificar_administrador usuario_actual with
  | .error e => .error e
  | .ok _ =>
    if store.usuarios.any (fun u => u.correo == usuario.correo) then
      .error { status := 400,
               detail := "El correo " ++ usuario.correo ++ " ya está registrado" }
    else if usuario.rol ≠ RolUsuario.USUARIO ∧ usuario.rol ≠ RolUsuario.ADMINISTRADOR then
      .error { status := 400,
               detail := "Rol inválido. Debe ser usuario o administrador" }
    else
      let db_usuario : Usuario :=
        { id := nuevo_id,
          nombre := usuario.nombre,
          correo := usuario.correo,
          contrasenaHash := hashear_contrasena cost salt usuario.contrasena,
          rol := usuario.rol,
          activo := true }
      .ok ({ store with usuarios := store.usuarios ++ [db_usuario] }, db_usuario)

/-- routers/usuarios.obtener_usuario: admin-gated read by id, 404 when
absent. -/
def obtener_usuario (store : Store) (usuario_actual : Usuario) (usuario_id : Nat) :
    Except HttpError Usuario :=
  match verificar_administrador usuario_actual with
  | .error e => .error e
  | .ok _ =>
    match store.usuarios.find? (fun u => u.id == usuario_id) with
    | none => .error { status := 404,
                       detail := "Usuario con ID " ++ toString usuario_id ++ " no encontrado" }
    | some usuario => .ok usuario

/-- The field application step of routers/usuarios.actualizar_usuario:
`model_dump(exclude_unset=True)` followed by hashing a provided password
and `setattr` on each provided field; absent fields (`none`) are left
untouched. -/
def aplicarUsuarioUpdate (cost salt : Nat) (usuario : Usuario) (upd : UsuarioUpdate) :
    Usuario :=
  let paso1 :=
    match upd.contrasena with
    | some pw => { usuario with contrasenaHash := hashear_contrasena cost salt pw }
    | none => usuario
  let paso2 :=
    match upd.nombre with
    | some n => { paso1 with nombre := n }
    | none => paso1
  match upd.correo with
  | some c => { paso2 with correo := c }
  | none => paso2

/-- routers/usuarios.actualizar_usuario: 404 when the id is absent; 403
unless the caller is an administrator or the target user; 400 when a
provided (truthy) new email differs from the current one and is already in
use; otherwise apply exactly the provided fields. -/
def actualizar_usuario (cost salt : Nat) (store : Store) (usuario_actual : Usuario)
    (usuario_id : Nat) (usuario_update : UsuarioUpdate) :
    Except HttpError (Store × Usuario) :=
  match store.usuarios.find? (fun u => u.id == usuario_id) with
  | none => .error { status := 404,
                     detail := "Usuario con ID " ++ toString usuario_id ++ " no encontrado" }
  | some usuario =>
    if usuario_actual.rol ≠ RolUsuario.ADMINISTRADOR ∧ usuario_actual.id ≠ usuario_id then
      .error { status := 403, detail := "No tiene permisos para actualizar este usuario" }
    else
      let correoEnUso : Bool :=
        match usuario_update.correo with
        | some c => c != "" && c != usuario.correo
            && store.usuarios.any (fun u => u.correo == c)
        | none => false
      if correoEnUso then
        .error { status := 400, detail := "El correo ya está en uso" }
      else
        let actualizado := aplicarUsuarioUpdate cost salt usuario usuario_update
        .ok ({ store with
               usuarios := store.usuarios.map
                 (fun u => if u.id == usuario_id then actualizado else u) },
             actualizado)

/-- routers/usuarios.eliminar_usuario: admin-gated; 404 when absent; else
`session.delete(usuario)` removes the usuario row and nothing else — the
handler issues no statement against the favoritos table. -/
def eliminar_usuario (store : Store) (usuario_actual : Usuario) (usuario_id : Nat) :
    Except HttpError Store :=
  match verificar_administrador usuario_actual with
  | .error e => .error e
  | .ok _ =>
    match store.usuarios.find? (fun u => u.id == usuario_id) with
    | none => .error { status := 404,
                       detail := "Usuario con ID " ++ toString usuario_id ++ " no encontrado" }
    | some _ =>
      .ok { store with usuarios := store.usuarios.filter (fun u => u.id != usuario_id) }

/-- The field application step of routers/canciones.actualizar_cancion:
`model_dump(exclude_unset=True)` + `setattr` per provided field. -/
def aplicarCancionUpdate (cancion : Cancion) (upd : CancionUpdate) : Cancion :=
  let paso1 := match upd.titulo with
    | some v => { cancion with titulo := v } | none => cancion
  let paso2 := match upd.artista with
    | some v => { paso1 with artista := v } | none => paso1
  let paso3 := match upd.album with
    | some v => { paso2 with album := some v } | none => paso2
  let paso4 := match upd.duracion with
    | some v => { paso3 with duracion := v } | none => paso3
  let paso5 := match upd.anio with
    | some v => { paso4 with anio := some v } | none => paso4
  match upd.genero with
  | some v => { paso5 with genero := some v } | none => paso5

/-- routers/canciones.actualizar_cancion: any authenticated caller; 404
when the id is absent; otherwise apply exactly the provided fields. -/
def actualizar_cancion (store : Store) (cancion_id : Nat) (cancion_update : CancionUpdate) :
    Except HttpError (Store × Cancion) :=
  match store.canciones.find? (fun c => c.id == cancion_id) with
  | none => .error { status := 404,
                     detail := "Canción con ID " ++ toString cancion_id ++ " no encontrada" }
  | some cancion =>
    let actualizada := aplicarCancionUpdate cancion cancion_update
    .ok ({ store with
           canciones := store.canciones.map
             (fun c => if c.id == cancion_id then actualizada else c) },
         actualizada)

/-- routers/canciones.eliminar_cancion: any authenticated caller; 404 when
absent; else `session.delete(cancion)` removes the canciones row and
nothing else — no statement touches the favoritos table. -/
def eliminar_cancion (store : Store) (cancion_id : Nat) : Except HttpError Store :=
  match store.canciones.find? (fun c => c.id == cancion_id) with
  | none => .error { status := 404,
                     detail := "Canción con ID " ++ toString cancion_id ++ " no encontrada" }
  | some _ =>
    .ok { store with canciones := store.canciones.filter (fun c => c.id != cancion_id) }

/-- routers/favoritos.crear_favorito: 403 unless the caller is the target
user or an administrator; 404 when user or song is absent; 400 when the
(user, song) pair is already marked; else store the new favorito. -/
def crear_favorito (store : Store) (usuario_actual : Usuario) (nuevo_id : Nat)
    (favorito : FavoritoCreate) : Except HttpError (Store × Favorito) :=
  if usuario_actual.rol ≠ RolUsuario.ADMINISTRADOR ∧ usuario_actual.id ≠ favorito.idUsuario then
    .error { status := 403,
             detail := "No tiene permisos para marcar favoritos para otro usuario" }
  else if store.usuarios.find? (fun u => u.id == favorito.idUsuario) |>.isNone then
    .error { status := 404,
             detail := "Usuario con ID " ++ toString favorito.idUsuario ++ " no encontrado" }
  else if store.canciones.find? (fun c => c.id == favorito.idCancion) |>.isNone then
    .error { status := 404,
             detail := "Canción con ID " ++ toString favorito.idCancion ++ " no encontrada" }
  else if store.favoritos.any
      (fun f => f.idUsuario == favorito.idUsuario && f.idCancion == favorito.idCancion) then
    .error { status := 400,
             detail := "Esta canción ya está marcada como favorita para este usuario" }
  else
    let db_favorito : Favorito :=
      { id := nuevo_id, idUsuario := favorito.idUsuario, idCancion := favorito.idCancion }
    .ok ({ store with favoritos := store.favoritos ++ [db_favorito] }, db_favorito)

/-- A 73-character password used to exhibit bcrypt truncation. -/
def clave73 : String := String.mk (List.replicate 73 'a')

/-- The 72-character prefix of clave73. -/
def clave72 : String := String.mk (List.replicate 72 'a')

/-- Number of stored users carrying a given email. -/
def countCorreo (store : Store) (correo : String) : Nat :=
  (store.usuarios.filter (fun u => u.correo == correo)).length

/-- Number of stored favoritos carrying a given (user, song) pair. -/
def countFavoritoPar (store : Store) (idU idC : Nat) : Nat :=
  (store.favoritos.filter (fun f => f.idUsuario == idU && f.idCancion == idC)).length

/-- The pair returned by a successful actualizar_usuario: the store with
the target row replaced, and the updated record. -/
def actualizacionExitosa (cost salt : Nat) (store : Store) (usuario_id : Nat)
    (target : Usuario) (upd : UsuarioUpdate) : Store × Usuario :=
  let actualizado := aplicarUsuarioUpdate cost salt target upd
  let usuarios2 := store.usuarios.map (fun u => if u.id == usuario_id then actualizado else u)
  ({ store with usuarios := usuarios2 }, actualizado)

/-- The pair returned by a successful actualizar_cancion. -/
def actualizacionCancionExitosa (store : Store) (cancion_id : Nat) (c : Cancion)
    (cu : CancionUpdate) : Store × Cancion :=
  let actualizada := aplicarCancionUpdate c cu
  let canciones2 := store.canciones.map (fun v => if v.id == cancion_id then actualizada else v)
  ({ store with canciones := canciones2 }, actualizada)

/-- Sample administrator record used to instantiate theorems. -/
def adminRosa : Usuario :=
  { id := 1, nombre := "Rosa", correo := "rosa@mail.com",
    contrasenaHash := hashear_contrasena 12 0 ("rosa1234"),
    rol := RolUsuario.ADMINISTRADOR, activo := true }

/-- Sample regular-user record used to instantiate theorems. -/
def anaUsuaria : Usuario :=
  { id := 2, nombre := "Ana", correo := "ana@mail.com",
    contrasenaHash := hashear_contrasena 12 0 ("ana12345"),
    rol := RolUsuario.USUARIO, activo := true }

/-- Sample inactive-user record used to instantiate theorems. -/
def inesInactiva : Usuario :=
  { id := 3, nombre := "Ines", correo := "ines@mail.com",
    contrasenaHash := hashear_contrasena 12 0 ("ines1234"),
    rol := RolUsuario.USUARIO, activo := false }

/-- Sample song record used to instantiate theorems. -/
def cancionUno : Cancion :=
  { id := 1, titulo := "Cancion Uno", artista := "Artista", album := none,
    duracion := 200, anio := none, genero := none }

/-- Sample favorito: user 2 (Ana) has favorited song 1. -/
def favAna : Favorito := { id := 1, idUsuario := 2, idCancion := 1 }

/-- Sample store holding the records above. -/
def tiendaBase : Store :=
  { usuarios := [adminRosa, anaUsuaria], canciones := [cancionUno], favoritos := [favAna] }

/-
Theorems.  One theorem per claim of the specification, preceded by the
helper lemmas they share.
-/

/-- Helper: a predicate filtering a list to length zero holds of no
element, so `any` is false. -/
theorem any_eq_false_of_filter_length_zero {α : Type} (p : α → Bool) (l : List α)
    (h : (l.filter p).length = 0) : l.any p = false := by
  rw [List.length_eq_zero] at h
  rw [List.any_eq_false]
  intro x hx hpx
  have hm : x ∈ l.filter p := List.mem_filter.mpr ⟨hx, hpx⟩
  rw [h] at hm
  exact absurd hm (List.not_mem_nil x)

/-- Helper: when the target user exists, the caller is the target or an
administrator, and no new email is provided, actualizar_usuario succeeds
and returns the updated store and record. -/
theorem actualizar_usuario_ok (cost salt : Nat) (store : Store) (caller : Usuario)
    (usuario_id : Nat) (target : Usuario) (upd : UsuarioUpdate)
    (ht : store.usuarios.find? (fun u => u.id == usuario_id) = some target)
    (hauth : caller.rol = RolUsuario.ADMINISTRADOR ∨ caller.id = usuario_id)
    (hne : upd.correo = none) :
    actualizar_usuario cost salt store caller usuario_id upd =
      .ok (actualizacionExitosa cost salt store usuario_id target upd) := by
  simp only [actualizar_usuario, ht, hne]
  rcases hauth with h | h
  · simp [h, actualizacionExitosa]
  · simp [h, actualizacionExitosa]

/-- C1, counterexample: the claim asserts no fixed-length truncation, but
bcrypt truncates at 72 bytes: a 73-byte password verifies against the
hash of its distinct 72-byte prefix. -/
theorem C1_counterexample :
    clave73 ≠ clave72 ∧
    verificar_contrasena clave73 (hashear_contrasena 12 0 clave72) = .ok true := by
  refine ⟨by decide, rfl⟩

/-- C1, amended: verify(p, hash(p)) is always true, and verify(p,
hash(p2)) is false exactly when p and p2 differ within their first 72
UTF-8 bytes; beyond 72 bytes the input is silently truncated. -/
theorem C1_amended (cost salt : Nat) (p p2 : String) :
    verificar_contrasena p (hashear_contrasena cost salt p) = .ok true ∧
    (verificar_contrasena p (hashear_contrasena cost salt p2) = .ok false ↔
      bcryptKey p ≠ bcryptKey p2) := by
  constructor
  · simp [verificar_contrasena, hashear_contrasena]
  · simp [verificar_contrasena, hashear_contrasena]

/-- C2, counterexample: a well-signed unexpired token still verifies, yet
presenting it as a bearer credential fails with 401 once the subject
account has been deleted from the store — authentication is not
independent of account changes. -/
theorem C2_counterexample :
    verificar_token 7 50 (crear_access_token 7 0 ("ana@mail.com") ("usuario") 100) =
      .ok { correo := "ana@mail.com", rol := some ("usuario") } ∧
    obtener_usuario_actual 7 50 [] (crear_access_token 7 0 ("ana@mail.com") ("usuario") 100) =
      .error credentialsException := ⟨rfl, rfl⟩

/-- C2, amended: token verification itself depends only on the signature
and the expiration instant — verificar_token consults no store, so there
is no revocation — but obtener_usuario_actual additionally requires the
subject email to resolve to an existing user (else 401) that is active
(else 403), so deletion, deactivation, or an email change after issuance
does cause rejection. -/
theorem C2_amended (secret now now2 delta : Nat) (usuarios : List Usuario)
    (sub rol : String) (h : now2 ≤ now + delta) :
    verificar_token secret now2 (crear_access_token secret now sub rol delta) =
      .ok { correo := sub, rol := some rol } ∧
    (usuarios.find? (fun u => u.correo == sub) = none →
      obtener_usuario_actual secret now2 usuarios (crear_access_token secret now sub rol delta) =
        .error credentialsException) ∧
    (∀ u, usuarios.find? (fun v => v.correo == sub) = some u → u.activo = false →
      obtener_usuario_actual secret now2 usuarios (crear_access_token secret now sub rol delta) =
        .error { status := 403, detail := "Usuario inactivo" }) := by
  have hv : verificar_token secret now2 (crear_access_token secret now sub rol delta) =
      .ok { correo := sub, rol := some rol } := by
    simp [verificar_token, jwtDecode, crear_access_token, Nat.not_lt.mpr h]
  refine ⟨hv, fun hn => ?_, fun u hf ha => ?_⟩
  · simp [obtener_usuario_actual, hv, hn]
  · simp [obtener_usuario_actual, hv, hf, ha]

/-- C2, witness for the amended theorem at a concrete token. -/
theorem C2_amended_witness :
    verificar_token 7 50 (crear_access_token 7 0 ("eva@mail.com") ("usuario") 100) =
      .ok { correo := "eva@mail.com", rol := some ("usuario") } :=
  (C2_amended 7 0 50 100 [] ("eva@mail.com") ("usuario") (by decide)).1

/-- C3, counterexample: on a malformed stored hash, verificar_contrasena
propagates passlib's UnknownHashError instead of returning false. -/
theorem C3_counterexample :
    verificar_contrasena ("secreta123") (.malformed ("no-un-hash")) = .error .unknownHash ∧
    verificar_contrasena ("secreta123") (.malformed ("no-un-hash")) ≠ .ok false := by
  refine ⟨rfl, fun h => Except.noConfusion h⟩

/-- C3, amended: for every plaintext and every malformed stored hash,
verificar_contrasena raises (propagates UnknownHashError) rather than
returning false. -/
theorem C3_amended (p raw : String) :
    verificar_contrasena p (.malformed raw) = .error .unknownHash := rfl

/-- C4: contrary to the delete handlers' own docstrings, deleting a user
or a song removes only that row; the favorito referencing the deleted
user id 2 (and song id 1) survives in the store. -/
theorem C4_bug :
    eliminar_usuario tiendaBase adminRosa 2 =
      .ok { usuarios := [adminRosa], canciones := [cancionUno], favoritos := [favAna] } ∧
    favAna.idUsuario = 2 ∧
    eliminar_cancion tiendaBase 1 =
      .ok { usuarios := [adminRosa, anaUsuaria], canciones := [], favoritos := [favAna] } ∧
    favAna.idCancion = 1 := ⟨rfl, rfl, rfl, rfl⟩

/-- C5: a token whose signature does not verify and a correctly signed
token past its expiration produce the identical error from
verificar_token — the same 401 with the same detail message. -/
theorem C5_confirm (secret now : Nat) (t1 t2 : JWT)
    (h1 : t1.signedWith ≠ secret) (h2 : t2.signedWith = secret)
    (h3 : t2.payload.exp < now) :
    verificar_token secret now t1 = .error credentialsException ∧
    verificar_token secret now t2 = .error credentialsException := by
  constructor
  · simp [verificar_token, jwtDecode, h1]
  · simp [verificar_token, jwtDecode, h2, h3]

/-- C5, witness at concrete tokens. -/
theorem C5_confirm_witness :
    verificar_token 7 10
        { payload := { sub := some ("x@mail.com"), rol := none, exp := 100 },
          signedWith := 5 } =
      .error credentialsException ∧
    verificar_token 7 10
        { payload := { sub := some ("x@mail.com"), rol := none, exp := 3 },
          signedWith := 7 } =
      .error credentialsException :=
  C5_confirm 7 10 _ _ (by decide) rfl (by decide)

/-- C6: a valid token for an inactive user is rejected with 403, while a
token failing verification, or one resolving to no stored user, is
rejected with the 401 credentials error. -/
theorem C6_confirm (secret now : Nat) (usuarios : List Usuario) (t1 t2 t3 : JWT)
    (td1 td3 : TokenData) (u1 : Usuario) (e2 : HttpError)
    (h1 : verificar_token secret now t1 = .ok td1)
    (h2 : usuarios.find? (fun v => v.correo == td1.correo) = some u1)
    (h3 : u1.activo = false)
    (h4 : verificar_token secret now t2 = .error e2)
    (h5 : verificar_token secret now t3 = .ok td3)
    (h6 : usuarios.find? (fun v => v.correo == td3.correo) = none) :
    obtener_usuario_actual secret now usuarios t1 =
      .error { status := 403, detail := "Usuario inactivo" } ∧
    obtener_usuario_actual secret now usuarios t2 = .error credentialsException ∧
    obtener_usuario_actual secret now usuarios t3 = .error credentialsException := by
  have he : e2 = credentialsException := by
    unfold verificar_token at h4
    cases hd : jwtDecode secret now t2 with
    | error je =>
      simp only [hd] at h4
      exact ((Except.error.injEq _ _).mp h4).symm
    | ok p =>
      simp only [hd] at h4
      cases hs : p.sub with
      | none =>
        simp only [hs] at h4
        exact ((Except.error.injEq _ _).mp h4).symm
      | some c =>
        simp only [hs] at h4
        exact Except.noConfusion h4
  refine ⟨?_, ?_, ?_⟩
  · simp [obtener_usuario_actual, h1, h2, h3]
  · rw [he] at h4; simp [obtener_usuario_actual, h4]
  · simp [obtener_usuario_actual, h5, h6]

/-- C6, witness: inactive Ines gets 403; a token signed with the wrong
key, and a token for an email not in the store, get 401. -/
theorem C6_confirm_witness :
    obtener_usuario_actual 7 50 [inesInactiva]
        (crear_access_token 7 0 ("ines@mail.com") ("usuario") 100) =
      .error { status := 403, detail := "Usuario inactivo" } ∧
    obtener_usuario_actual 7 50 [inesInactiva]
        { payload := { sub := some ("ines@mail.com"), rol := none, exp := 100 },
          signedWith := 5 } =
      .error credentialsException ∧
    obtener_usuario_actual 7 50 [inesInactiva]
        (crear_access_token 7 0 ("otro@mail.com") ("usuario") 100) =
      .error credentialsException :=
  C6_confirm 7 50 [inesInactiva] _ _ _
    { correo := "ines@mail.com", rol := some ("usuario") }
    { correo := "otro@mail.com", rol := some ("usuario") }
    inesInactiva credentialsException rfl rfl rfl rfl rfl rfl

/-- C7: for the User resource, list, create, read and delete reject every
non-administrator caller with 403; an administrator listing users receives
the (paginated) user list; and an update by a caller who is neither the
target nor an administrator is rejected with 403, while the target user or
an administrator succeeds (target existing, no email change). -/
theorem C7_confirm (cost salt : Nat) (store : Store) (caller admin target : Usuario)
    (skip limit nuevo_id usuario_id : Nat) (uc : UsuarioCreate) (upd : UsuarioUpdate)
    (hc : caller.rol ≠ RolUsuario.ADMINISTRADOR)
    (ha : admin.rol = RolUsuario.ADMINISTRADOR)
    (ht : store.usuarios.find? (fun u => u.id == usuario_id) = some target)
    (hne : upd.correo = none) :
    listar_usuarios store caller skip limit =
      .error { status := 403, detail := "No tiene permisos de administrador" } ∧
    crear_usuario cost salt store caller nuevo_id uc =
      .error { status := 403, detail := "No tiene permisos de administrador" } ∧
    obtener_usuario store caller usuario_id =
      .error { status := 403, detail := "No tiene permisos de administrador" } ∧
    eliminar_usuario store caller usuario_id =
      .error { status := 403, detail := "No tiene permisos de administrador" } ∧
    listar_usuarios store admin skip limit = .ok ((store.usuarios.drop skip).take limit) ∧
    ((∃ r, actualizar_usuario cost salt store caller usuario_id upd = .ok r) ↔
      caller.id = usuario_id) ∧
    (caller.id ≠ usuario_id →
      actualizar_usuario cost salt store caller usuario_id upd =
        .error { status := 403, detail := "No tiene permisos para actualizar este usuario" }) ∧
    (∃ r, actualizar_usuario cost salt store admin usuario_id upd = .ok r) := by
  refine ⟨?_, ?_, ?_, ?_, ?_, ?_, ?_, ?_⟩
  · simp [listar_usuarios, verificar_administrador, hc]
  · simp [crear_usuario, verificar_administrador, hc]
  · simp [obtener_usuario, verificar_administrador, hc]
  · simp [eliminar_usuario, verificar_administrador, hc]
  · simp [listar_usuarios, verificar_administrador, ha]
  · constructor
    · rintro ⟨r, hr⟩
      by_contra hid
      simp [actualizar_usuario, ht, hc, hid] at hr
    · intro hid
      exact ⟨_, actualizar_usuario_ok cost salt store caller usuario_id target upd ht
        (Or.inr hid) hne⟩
  · intro hid
    simp [actualizar_usuario, ht, hc, hid]
  · exact ⟨_, actualizar_usuario_ok cost salt store admin usuario_id target upd ht
      (Or.inl ha) hne⟩

/-- C7, witness: regular user Ana gets 403 on list; admin Rosa gets the
full list. -/
theorem C7_confirm_witness :
    listar_usuarios tiendaBase anaUsuaria 0 100 =
      .error { status := 403, detail := "No tiene permisos de administrador" } ∧
    listar_usuarios tiendaBase adminRosa 0 100 = .ok [adminRosa, anaUsuaria] := by
  have h := C7_confirm 12 0 tiendaBase anaUsuaria adminRosa anaUsuaria 0 100 7 2
    { nombre := "Eva", correo := "eva@mail.com", contrasena := "eva12345" } {}
    (by decide) rfl rfl rfl
  exact ⟨h.1, h.2.2.2.2.1⟩

/-- C8: registering a taken email and favoriting an existing (user, song)
pair are rejected with 400; after a first successful create, exactly one
matching record exists, and the duplicate attempt errors, returning no
modified store. -/
theorem C8_confirm (cost salt : Nat) (store : Store) (id1 id2 fid1 fid2 : Nat)
    (reg reg2 : UsuarioRegister) (admin : Usuario) (fav : FavoritoCreate)
    (usr : Usuario) (cnc : Cancion)
    (hsame : reg2.correo = reg.correo)
    (h0 : countCorreo store reg.correo = 0)
    (ha : admin.rol = RolUsuario.ADMINISTRADOR)
    (hu : store.usuarios.find? (fun u => u.id == fav.idUsuario) = some usr)
    (hcanc : store.canciones.find? (fun c => c.id == fav.idCancion) = some cnc)
    (hf0 : countFavoritoPar store fav.idUsuario fav.idCancion = 0) :
    (∃ r, registrar_usuario cost salt store id1 reg = .ok r ∧
       countCorreo r.1 reg.correo = 1 ∧
       registrar_usuario cost salt r.1 id2 reg2 =
         .error { status := 400,
                  detail := "El correo " ++ reg2.correo ++ " ya está registrado" }) ∧
    (∃ r, crear_favorito store admin fid1 fav = .ok r ∧
       countFavoritoPar r.1 fav.idUsuario fav.idCancion = 1 ∧
       crear_favorito r.1 admin fid2 fav =
         .error { status := 400,
                  detail := "Esta canción ya está marcada como favorita para este usuario" }) := by
  have hany : store.usuarios.any (fun u => u.correo == reg.correo) = false :=
    any_eq_false_of_filter_length_zero _ _ h0
  have hfany : store.favoritos.any
      (fun f => f.idUsuario == fav.idUsuario && f.idCancion == fav.idCancion) = false :=
    any_eq_false_of_filter_length_zero _ _ hf0
  have hfil : store.usuarios.filter (fun u => u.correo == reg.correo) = [] := by
    have h := h0
    rwa [countCorreo, List.length_eq_zero] at h
  have hffil : store.favoritos.filter
      (fun f => f.idUsuario == fav.idUsuario && f.idCancion == fav.idCancion) = [] := by
    have h := hf0
    rwa [countFavoritoPar, List.length_eq_zero] at h
  constructor
  · refine ⟨({ store with usuarios := store.usuarios ++
        [{ id := id1, nombre := reg.nombre, correo := reg.correo,
           contrasenaHash := hashear_contrasena cost salt reg.contrasena,
           rol := RolUsuario.USUARIO, activo := true }] },
      { id := id1, nombre := reg.nombre, correo := reg.correo,
        contrasenaHash := hashear_contrasena cost salt reg.contrasena,
        rol := RolUsuario.USUARIO, activo := true }), ?_, ?_, ?_⟩
    · simp [registrar_usuario, hany]
    · simp [countCorreo, List.filter_append, hfil]
    · simp [registrar_usuario, hsame, List.any_append]
  · refine ⟨({ store with favoritos := store.favoritos ++
        [{ id := fid1, idUsuario := fav.idUsuario, idCancion := fav.idCancion }] },
      { id := fid1, idUsuario := fav.idUsuario, idCancion := fav.idCancion }), ?_, ?_, ?_⟩
    · simp [crear_favorito, ha, hu, hcanc, hfany]
    · simp [countFavoritoPar, List.filter_append, hffil]
    · simp [crear_favorito, ha, hu, hcanc, List.any_append]

/-- C8, witness: registering Eva twice, and admin Rosa favoriting song 1
twice, on the sample store. -/
theorem C8_confirm_witness :
    (∃ r, registrar_usuario 12 0 tiendaBase 7
        { nombre := "Eva", correo := "eva@mail.com", contrasena := "eva12345" } = .ok r ∧
      countCorreo r.1 ("eva@mail.com") = 1 ∧
      registrar_usuario 12 0 r.1 8
          { nombre := "Eva Dos", correo := "eva@mail.com", contrasena := "otra1234" } =
        .error { status := 400,
                 detail := "El correo " ++ "eva@mail.com" ++ " ya está registrado" }) ∧
    (∃ r, crear_favorito tiendaBase adminRosa 9 { idUsuario := 1, idCancion := 1 } = .ok r ∧
      countFavoritoPar r.1 1 1 = 1 ∧
      crear_favorito r.1 adminRosa 10 { idUsuario := 1, idCancion := 1 } =
        .error { status := 400,
                 detail := "Esta canción ya está marcada como favorita para este usuario" }) :=
  C8_confirm 12 0 tiendaBase 7 8 9 10
    { nombre := "Eva", correo := "eva@mail.com", contrasena := "eva12345" }
    { nombre := "Eva Dos", correo := "eva@mail.com", contrasena := "otra1234" }
    adminRosa { idUsuario := 1, idCancion := 1 } adminRosa cancionUno
    rfl rfl rfl rfl rfl rfl

/-- C9: updates have partial-update semantics — the resulting user or
song record takes exactly the provided fields, keeps every absent field,
re-hashes a provided password, and never touches id, rol or activo; and
the two update endpoints, when authorized on an existing target, store
exactly that record. -/
theorem C9_confirm (cost salt : Nat) (u : Usuario) (upd0 : UsuarioUpdate)
    (c0 : Cancion) (cu0 : CancionUpdate)
    (store : Store) (caller target : Usuario) (usuario_id cancion_id : Nat)
    (upd : UsuarioUpdate) (cu : CancionUpdate) (c : Cancion)
    (ht : store.usuarios.find? (fun v => v.id == usuario_id) = some target)
    (hauth : caller.rol = RolUsuario.ADMINISTRADOR ∨ caller.id = usuario_id)
    (hne : upd.correo = none)
    (htc : store.canciones.find? (fun v => v.id == cancion_id) = some c) :
    aplicarUsuarioUpdate cost salt u upd0 =
      { id := u.id,
        nombre := upd0.nombre.getD u.nombre,
        correo := upd0.correo.getD u.correo,
        contrasenaHash := match upd0.contrasena with
          | some pw => hashear_contrasena cost salt pw
          | none => u.contrasenaHash,
        rol := u.rol,
        activo := u.activo } ∧
    aplicarCancionUpdate c0 cu0 =
      { id := c0.id,
        titulo := cu0.titulo.getD c0.titulo,
        artista := cu0.artista.getD c0.artista,
        album := match cu0.album with
          | some v => some v
          | none => c0.album,
        duracion := cu0.duracion.getD c0.duracion,
        anio := match cu0.anio with
          | some v => some v
          | none => c0.anio,
        genero := match cu0.genero with
          | some v => some v
          | none => c0.genero } ∧
    actualizar_usuario cost salt store caller usuario_id upd =
      .ok (actualizacionExitosa cost salt store usuario_id target upd) ∧
    actualizar_cancion store cancion_id cu =
      .ok (actualizacionCancionExitosa store cancion_id c cu) := by
  refine ⟨?_, ?_, ?_, ?_⟩
  · obtain ⟨n, cr, pw⟩ := upd0
    cases n <;> cases cr <;> cases pw <;> rfl
  · obtain ⟨t, a, al, d, an, g⟩ := cu0
    cases t <;> cases a <;> cases al <;> cases d <;> cases an <;> cases g <;> rfl
  · exact actualizar_usuario_ok cost salt store caller usuario_id target upd ht hauth hne
  · simp only [actualizar_cancion, htc]
    simp [actualizacionCancionExitosa]

/-- C9, witness: Ana renames herself; a song title is changed; both
endpoints store exactly the applied record. -/
theorem C9_confirm_witness :
    actualizar_usuario 12 0 tiendaBase anaUsuaria 2 { nombre := some ("Ana Maria") } =
      .ok (actualizacionExitosa 12 0 tiendaBase 2 anaUsuaria { nombre := some ("Ana Maria") }) ∧
    actualizar_cancion tiendaBase 1 { titulo := some ("Otra") } =
      .ok (actualizacionCancionExitosa tiendaBase 1 cancionUno { titulo := some ("Otra") }) := by
  have h := C9_confirm 12 0 anaUsuaria { nombre := some ("Ana Maria") } cancionUno
    { titulo := some ("Otra") } tiendaBase anaUsuaria anaUsuaria 2 1
    { nombre := some ("Ana Maria") } { titulo := some ("Otra") } cancionUno
    rfl (Or.inr rfl) rfl rfl
  exact ⟨h.2.2.1, h.2.2.2⟩

/-- C10: every user created through the public registration endpoint is
stored with rol = "usuario" and activo = true and appended to the store;
the request schema carries no rol or activo field at all. -/
theorem C10_confirm (cost salt : Nat) (store : Store) (nuevo_id : Nat)
    (reg : UsuarioRegister) (store1 : Store) (u : Usuario)
    (h : registrar_usuario cost salt store nuevo_id reg = .ok (store1, u)) :
    u.rol = RolUsuario.USUARIO ∧ u.activo = true ∧ store1.usuarios = store.usuarios ++ [u] := by
  unfold registrar_usuario at h
  split at h
  · exact Except.noConfusion h
  · simp only [Except.ok.injEq, Prod.mk.injEq] at h
    obtain ⟨h1, h2⟩ := h
    subst h1
    subst h2
    exact ⟨rfl, rfl, rfl⟩

/-- C10, witness: Paula registered on the sample store. -/
theorem C10_confirm_witness :
    (({ id := 7, nombre := "Paula", correo := "paula@mail.com",
        contrasenaHash := hashear_contrasena 12 0 ("paula123"),
        rol := RolUsuario.USUARIO, activo := true } : Usuario).rol = RolUsuario.USUARIO) ∧
    (({ id := 7, nombre := "Paula", correo := "paula@mail.com",
        contrasenaHash := hashear_contrasena 12 0 ("paula123"),
        rol := RolUsuario.USUARIO, activo := true } : Usuario).activo = true) ∧
    ({ tiendaBase with usuarios := tiendaBase.usuarios ++
        [{ id := 7, nombre := "Paula", correo := "paula@mail.com",
           contrasenaHash := hashear_contrasena 12 0 ("paula123"),
           rol := RolUsuario.USUARIO, activo := true }] } : Store).usuarios =
      tiendaBase.usuarios ++
        [{ id := 7, nombre := "Paula", correo := "paula@mail.com",
           contrasenaHash := hashear_contrasena 12 0 ("paula123"),
           rol := RolUsuario.USUARIO, activo := true }] :=
  C10_confirm 12 0 tiendaBase 7
    { nombre := "Paula", correo := "paula@mail.com", contrasena := "paula123" } _ _ rfl

end MusicaApi
